import Mathlib

/-!
Verification of the Masark personality scoring core.

Shallow embedding of `src/services/personality_scoring.py` and
`src/services/enhanced_personality_scoring.py` (plus the slice of
`src/models/masark_models.py` they depend on).  Machine floats of the
source are modelled as exact rationals; the square roots and the
geometric mean of the statistical layer are modelled over the reals.
The session store is threaded explicitly: every entry point returns the
(possibly updated) session next to its `Except` result, mirroring the
fact that the Python code raises before `db.session.commit` on every
failure path.
-/

namespace Masark

open Classical

/-! ## Data model (`masark_models.py`) -/

/-- The four MBTI dimension pairs (`PersonalityDimension`). -/
inductive PersonalityDimension
  | EI
  | SN
  | TF
  | JP
deriving DecidableEq

/-- Clarity bands (`PreferenceStrength`). -/
inductive PreferenceStrength
  | SLIGHT
  | MODERATE
  | CLEAR
  | VERY_CLEAR
deriving DecidableEq

/-- A forced-choice selection (`selected_option` column, `'A'`/`'B'`). -/
inductive SelectedOption
  | A
  | B
deriving DecidableEq

/-- One active question of the catalog (`Question`): stable id, dimension
tag, and the polarity flag `option_a_maps_to_first`. -/
structure Question where
  id : Nat
  dimension : PersonalityDimension
  option_a_maps_to_first : Bool
deriving DecidableEq

/-- One stored answer (`AssessmentAnswer`). -/
structure AssessmentAnswer where
  question_id : Nat
  selected_option : SelectedOption
deriving DecidableEq

/-- A row of the `PersonalityType` table (only the columns the scoring
services read). -/
structure PersonalityTypeRec where
  id : Nat
  code : String
  name_en : String
deriving DecidableEq

/-- The session row fields the scoring services read and write
(`AssessmentSession`). -/
structure AssessmentSession where
  id : Nat
  is_completed : Bool
  personality_type_id : Option Nat
  e_strength : ℚ
  s_strength : ℚ
  t_strength : ℚ
  j_strength : ℚ
  ei_clarity : Option PreferenceStrength
  sn_clarity : Option PreferenceStrength
  tf_clarity : Option PreferenceStrength
  jp_clarity : Option PreferenceStrength
deriving DecidableEq

/-- Error kinds.  The Python code raises `ValueError`/`StatisticsError`
with distinguishing messages; each raise site is mapped to one
constructor. -/
inductive ScoringError
  | sessionNotCompleted
  | incompleteAssessment
  | invalidResponseValue
  | wrongActiveQuestionCount
  | statisticsError
deriving DecidableEq

/-- `questions.get(answer.question_id)`: the catalog dict keyed by id. -/
def find_question (questions : List Question) (qid : Nat) : Option Question :=
  questions.find? (fun q => q.id == qid)

/-- The repeated source expression
`(selected_option == 'A' and question.option_a_maps_to_first) or
 (selected_option == 'B' and not question.option_a_maps_to_first)`. -/
def maps_to_first (a : AssessmentAnswer) (q : Question) : Bool :=
  (a.selected_option == .A && q.option_a_maps_to_first) ||
  (a.selected_option == .B && !q.option_a_maps_to_first)

/-- Association-list lookup, modelling Python's `dict.get(key)`. -/
def dict_find? {α : Type} (d : List (String × α)) (k : String) : Option α :=
  (d.find? (fun p => p.1 == k)).map Prod.snd

/-- Python's `dict.get(key, default)`. -/
def dict_get {α : Type} (d : List (String × α)) (k : String) (dflt : α) : α :=
  (dict_find? d k).getD dflt

/-! ## Basic scoring service (`personality_scoring.py`) -/

/-- `PersonalityScores` dataclass: raw per-letter counters. -/
structure PersonalityScores where
  e_score : Nat := 0
  i_score : Nat := 0
  s_score : Nat := 0
  n_score : Nat := 0
  t_score : Nat := 0
  f_score : Nat := 0
  j_score : Nat := 0
  p_score : Nat := 0
deriving DecidableEq

/-- `TIE_BREAKING_RULES` of `PersonalityScoringService`. -/
def TIE_BREAKING_RULES : PersonalityDimension → Char
  | .EI => 'I'
  | .SN => 'N'
  | .TF => 'F'
  | .JP => 'P'

/-- `STRENGTH_THRESHOLDS` of `PersonalityScoringService`. -/
def STRENGTH_THRESHOLDS : PreferenceStrength → ℚ
  | .SLIGHT => 0.60
  | .MODERATE => 0.75
  | .CLEAR => 0.90
  | .VERY_CLEAR => 1.0

/-- Body of the answer loop of `_calculate_dimension_scores`: an answer
whose question id is missing from the active catalog is skipped
(`continue`), otherwise the counter selected by the question's dimension
and the `maps_to_first` test is incremented. -/
def apply_answer (questions : List Question) (scores : PersonalityScores)
    (a : AssessmentAnswer) : PersonalityScores :=
  match find_question questions a.question_id with
  | none => scores
  | some q =>
    match q.dimension, maps_to_first a q with
    | .EI, true  => { scores with e_score := scores.e_score + 1 }
    | .EI, false => { scores with i_score := scores.i_score + 1 }
    | .SN, true  => { scores with s_score := scores.s_score + 1 }
    | .SN, false => { scores with n_score := scores.n_score + 1 }
    | .TF, true  => { scores with t_score := scores.t_score + 1 }
    | .TF, false => { scores with f_score := scores.f_score + 1 }
    | .JP, true  => { scores with j_score := scores.j_score + 1 }
    | .JP, false => { scores with p_score := scores.p_score + 1 }

/-- `_calculate_dimension_scores`. -/
def calculate_dimension_scores (answers : List AssessmentAnswer)
    (questions : List Question) : PersonalityScores :=
  answers.foldl (apply_answer questions) {}

/-- `_determine_personality_type`: majority vote per pair with the fixed
tie-break letters, concatenated in order EI, SN, TF, JP. -/
def determine_personality_type (scores : PersonalityScores) : String :=
  let ei := if scores.e_score > scores.i_score then 'E'
            else if scores.i_score > scores.e_score then 'I'
            else TIE_BREAKING_RULES .EI
  let sn := if scores.s_score > scores.n_score then 'S'
            else if scores.n_score > scores.s_score then 'N'
            else TIE_BREAKING_RULES .SN
  let tf := if scores.t_score > scores.f_score then 'T'
            else if scores.f_score > scores.t_score then 'F'
            else TIE_BREAKING_RULES .TF
  let jp := if scores.j_score > scores.p_score then 'J'
            else if scores.p_score > scores.j_score then 'P'
            else TIE_BREAKING_RULES .JP
  String.mk [ei, sn, tf, jp]

/-- `_calculate_preference_strengths`: the per-letter percentage dict;
a pair contributes its two entries only when its total is positive. -/
def calculate_preference_strengths (scores : PersonalityScores) :
    List (String × ℚ) :=
  let ei_total := scores.e_score + scores.i_score
  let sn_total := scores.s_score + scores.n_score
  let tf_total := scores.t_score + scores.f_score
  let jp_total := scores.j_score + scores.p_score
  (if ei_total > 0 then
    [("E", (scores.e_score : ℚ) / ei_total), ("I", (scores.i_score : ℚ) / ei_total)]
   else []) ++
  (if sn_total > 0 then
    [("S", (scores.s_score : ℚ) / sn_total), ("N", (scores.n_score : ℚ) / sn_total)]
   else []) ++
  (if tf_total > 0 then
    [("T", (scores.t_score : ℚ) / tf_total), ("F", (scores.f_score : ℚ) / tf_total)]
   else []) ++
  (if jp_total > 0 then
    [("J", (scores.j_score : ℚ) / jp_total), ("P", (scores.p_score : ℚ) / jp_total)]
   else [])

/-- Loop body of `_calculate_preference_clarity`: the ascending threshold
chain over `STRENGTH_THRESHOLDS`. -/
def clarity_of_strength (strength : ℚ) : PreferenceStrength :=
  if strength < STRENGTH_THRESHOLDS .SLIGHT then .SLIGHT
  else if strength < STRENGTH_THRESHOLDS .MODERATE then .MODERATE
  else if strength < STRENGTH_THRESHOLDS .CLEAR then .CLEAR
  else .VERY_CLEAR

/-- `_calculate_preference_clarity`: classifies, per pair, the dominant
preference's strength. -/
def calculate_preference_clarity (strengths : List (String × ℚ)) :
    List (String × PreferenceStrength) :=
  [("EI", clarity_of_strength (max (dict_get strengths "E" 0) (dict_get strengths "I" 0))),
   ("SN", clarity_of_strength (max (dict_get strengths "S" 0) (dict_get strengths "N" 0))),
   ("TF", clarity_of_strength (max (dict_get strengths "T" 0) (dict_get strengths "F" 0))),
   ("JP", clarity_of_strength (max (dict_get strengths "J" 0) (dict_get strengths "P" 0)))]

/-- `_identify_borderline_dimensions` (default threshold 0.55). -/
def identify_borderline_dimensions (strengths : List (String × ℚ))
    (threshold : ℚ := 0.55) : List String :=
  [("EI", max (dict_get strengths "E" 0) (dict_get strengths "I" 0)),
   ("SN", max (dict_get strengths "S" 0) (dict_get strengths "N" 0)),
   ("TF", max (dict_get strengths "T" 0) (dict_get strengths "F" 0)),
   ("JP", max (dict_get strengths "J" 0) (dict_get strengths "P" 0))].filterMap
    (fun p => if p.2 < threshold then some p.1 else none)

/-- `_count_questions_per_dimension`. -/
def count_questions_per_dimension (questions : List Question) :
    List (String × Nat) :=
  [("EI", (questions.filter (fun q => q.dimension == .EI)).length),
   ("SN", (questions.filter (fun q => q.dimension == .SN)).length),
   ("TF", (questions.filter (fun q => q.dimension == .TF)).length),
   ("JP", (questions.filter (fun q => q.dimension == .JP)).length)]

/-- `PersonalityResult` dataclass. -/
structure PersonalityResult where
  personality_type : String
  type_code : String
  dimension_scores : PersonalityScores
  preference_strengths : List (String × ℚ)
  preference_clarity : List (String × PreferenceStrength)
  borderline_dimensions : List String
  total_questions_per_dimension : List (String × Nat)
deriving DecidableEq

/-- `_update_session_with_results`: writes the resolved type id (when the
type table has the code), the E/S/T/J strengths read back from the
result's strength dict, and the four clarity entries. -/
def update_session_with_results (types_table : List PersonalityTypeRec)
    (session : AssessmentSession) (result : PersonalityResult) :
    AssessmentSession :=
  let session :=
    match types_table.find? (fun t => t.code == result.type_code) with
    | some pt => { session with personality_type_id := some pt.id }
    | none => session
  { session with
    e_strength := dict_get result.preference_strengths "E" 0,
    s_strength := dict_get result.preference_strengths "S" 0,
    t_strength := dict_get result.preference_strengths "T" 0,
    j_strength := dict_get result.preference_strengths "J" 0,
    ei_clarity := dict_find? result.preference_clarity "EI",
    sn_clarity := dict_find? result.preference_clarity "SN",
    tf_clarity := dict_find? result.preference_clarity "TF",
    jp_clarity := dict_find? result.preference_clarity "JP" }

/-- `calculate_personality_type` (ScoreFromSession, basic variant).  The
session record stands for the row fetched by `session_id`; the answers
and active questions are the query results.  All validation happens
before any tally; the session is mutated only on the success path. -/
def calculate_personality_type (session : AssessmentSession)
    (answers : List AssessmentAnswer) (active_questions : List Question)
    (types_table : List PersonalityTypeRec) :
    Except ScoringError PersonalityResult × AssessmentSession :=
  if !session.is_completed then (.error .sessionNotCompleted, session)
  else if answers.length ≠ 36 then (.error .incompleteAssessment, session)
  else
    let scores := calculate_dimension_scores answers active_questions
    let type_code := determine_personality_type scores
    let strengths := calculate_preference_strengths scores
    let clarity := calculate_preference_clarity strengths
    let borderline := identify_borderline_dimensions strengths
    let qpd := count_questions_per_dimension active_questions
    let type_name :=
      match types_table.find? (fun t => t.code == type_code) with
      | some pt => pt.name_en
      | none => "Type " ++ type_code
    let result : PersonalityResult :=
      { personality_type := type_name,
        type_code := type_code,
        dimension_scores := scores,
        preference_strengths := strengths,
        preference_clarity := clarity,
        borderline_dimensions := borderline,
        total_questions_per_dimension := qpd }
    (.ok result, update_session_with_results types_table session result)

/-- Type code projection of the basic entry point. -/
def basic_type_code (session : AssessmentSession)
    (answers : List AssessmentAnswer) (active_questions : List Question)
    (types_table : List PersonalityTypeRec) : Option String :=
  match (calculate_personality_type session answers active_questions types_table).1 with
  | .ok r => some r.type_code
  | .error _ => none

/-- Dispatch of the inline per-response increment of
`calculate_personality_type_from_responses` (same eight-way dispatch as
`apply_answer`, but on a question taken positionally, without a catalog
lookup). -/
def increment_scores (scores : PersonalityScores) (q : Question)
    (sel : SelectedOption) : PersonalityScores :=
  let m2f := (sel == .A && q.option_a_maps_to_first) ||
             (sel == .B && !q.option_a_maps_to_first)
  match q.dimension, m2f with
  | .EI, true  => { scores with e_score := scores.e_score + 1 }
  | .EI, false => { scores with i_score := scores.i_score + 1 }
  | .SN, true  => { scores with s_score := scores.s_score + 1 }
  | .SN, false => { scores with n_score := scores.n_score + 1 }
  | .TF, true  => { scores with t_score := scores.t_score + 1 }
  | .TF, false => { scores with f_score := scores.f_score + 1 }
  | .JP, true  => { scores with j_score := scores.j_score + 1 }
  | .JP, false => { scores with p_score := scores.p_score + 1 }

/-- `calculate_personality_type_from_responses` (ScoreFromRawResponses).
A response `<= 2` selects A, `>= 4` selects B, and the neutral `3` is
resolved by `random.choice(['A','B'])`, modelled by the explicit oracle
`coin` indexed by position.  The method never touches the session row;
the ambient session is threaded to make that frame condition a stated
fact rather than a convention. -/
def calculate_personality_type_from_responses (session : AssessmentSession)
    (responses : List Int) (active_questions : List Question)
    (types_table : List PersonalityTypeRec) (coin : Nat → SelectedOption) :
    Except ScoringError PersonalityResult × AssessmentSession :=
  if responses.length ≠ 36 then (.error .incompleteAssessment, session)
  else if responses.any (fun r => r < 1 || r > 5) then
    (.error .invalidResponseValue, session)
  else if active_questions.length ≠ 36 then
    (.error .wrongActiveQuestionCount, session)
  else
    let scores := (responses.enum.zip active_questions).foldl
      (fun s p =>
        let sel := if p.1.2 ≤ 2 then SelectedOption.A
                   else if p.1.2 ≥ 4 then SelectedOption.B
                   else coin p.1.1
        increment_scores s p.2 sel) {}
    let type_code := determine_personality_type scores
    let strengths := calculate_preference_strengths scores
    let clarity := calculate_preference_clarity strengths
    let borderline := identify_borderline_dimensions strengths
    let qpd := count_questions_per_dimension active_questions
    let type_name :=
      match types_table.find? (fun t => t.code == type_code) with
      | some pt => pt.name_en
      | none => "Type " ++ type_code
    let result : PersonalityResult :=
      { personality_type := type_name,
        type_code := type_code,
        dimension_scores := scores,
        preference_strengths := strengths,
        preference_clarity := clarity,
        borderline_dimensions := borderline,
        total_questions_per_dimension := qpd }
    (.ok result, session)

/-! ## Enhanced scoring service (`enhanced_personality_scoring.py`) -/

/-- One row of the `dimension_scores` dict of
`_calculate_dimensional_analyses`: first-letter count, second-letter
count, and total for one dimension pair. -/
structure DimCount where
  first_count : Nat := 0
  second_count : Nat := 0
  total : Nat := 0
deriving DecidableEq

/-- The full `dimension_scores` dict. -/
structure EnhancedScoresDict where
  EI : DimCount := {}
  SN : DimCount := {}
  TF : DimCount := {}
  JP : DimCount := {}
deriving DecidableEq

def EnhancedScoresDict.get (d : EnhancedScoresDict) :
    PersonalityDimension → DimCount
  | .EI => d.EI
  | .SN => d.SN
  | .TF => d.TF
  | .JP => d.JP

/-- One iteration of the counting loop: total is incremented together
with the letter picked by `maps_to_first`. -/
def DimCount.bump (c : DimCount) (m2f : Bool) : DimCount :=
  { first_count := c.first_count + (if m2f then 1 else 0),
    second_count := c.second_count + (if m2f then 0 else 1),
    total := c.total + 1 }

/-- Body of the counting loop of `_calculate_dimensional_analyses`:
unknown question ids are skipped (`continue`), known ones bump the
counter row of their dimension. -/
def enhanced_apply_answer (questions : List Question)
    (d : EnhancedScoresDict) (a : AssessmentAnswer) : EnhancedScoresDict :=
  match find_question questions a.question_id with
  | none => d
  | some q =>
    let m2f := maps_to_first a q
    match q.dimension with
    | .EI => { d with EI := d.EI.bump m2f }
    | .SN => { d with SN := d.SN.bump m2f }
    | .TF => { d with TF := d.TF.bump m2f }
    | .JP => { d with JP := d.JP.bump m2f }

/-- The counting phase of `_calculate_dimensional_analyses`. -/
def enhanced_scores (answers : List AssessmentAnswer)
    (questions : List Question) : EnhancedScoresDict :=
  answers.foldl (enhanced_apply_answer questions) {}

/-- The two letters of a pair, first letter first. -/
def dim_letters : PersonalityDimension → Char × Char
  | .EI => ('E', 'I')
  | .SN => ('S', 'N')
  | .TF => ('T', 'F')
  | .JP => ('J', 'P')

/-- String names of the dimension keys. -/
def dim_name : PersonalityDimension → String
  | .EI => "EI"
  | .SN => "SN"
  | .TF => "TF"
  | .JP => "JP"

/-- `TIE_BREAKING_RULES` of `EnhancedPersonalityScoringService`:
letter plus fixed 0.51 confidence. -/
def ENHANCED_TIE_BREAKING_RULES : PersonalityDimension → Char × ℝ
  | .EI => ('I', 0.51)
  | .SN => ('N', 0.51)
  | .TF => ('F', 0.51)
  | .JP => ('P', 0.51)

/-- `PROFESSIONAL_THRESHOLDS` of `EnhancedPersonalityScoringService`. -/
def PROFESSIONAL_THRESHOLDS : PreferenceStrength → ℚ
  | .SLIGHT => 0.56
  | .MODERATE => 0.66
  | .CLEAR => 0.76
  | .VERY_CLEAR => 0.86

/-- `QUALITY_THRESHOLDS` of `EnhancedPersonalityScoringService`. -/
def QUALITY_THRESHOLDS : String → ℚ
  | "excellent" => 0.85
  | "good" => 0.70
  | "acceptable" => 0.55
  | "questionable" => 0.40
  | _ => 0

/-- `_calculate_confidence_level`: normal-approximation confidence for a
dimension preference, clamped to [0,1]. -/
noncomputable def calculate_confidence_level (raw_score total_questions : Nat) : ℝ :=
  if total_questions = 0 then 0
  else
    let p : ℝ := (raw_score : ℝ) / (total_questions : ℝ)
    if total_questions > 5 then
      let margin_error := 1.96 * Real.sqrt (p * (1 - p) / (total_questions : ℝ))
      let distance_from_neutral := |p - 0.5|
      let confidence :=
        if margin_error > 0 then min 1 (distance_from_neutral / margin_error) else 1
      max 0 (min 1 confidence)
    else
      max 0 (min 1 (|p - 0.5| * 2))

/-- `_calculate_standard_error`. -/
noncomputable def calculate_standard_error (percentage : ℚ) (n : Nat) : ℝ :=
  if n = 0 then 1
  else Real.sqrt ((percentage : ℝ) * (1 - (percentage : ℝ)) / (n : ℝ))

/-- `_calculate_z_score`: `(p - 0.5) / 0.5`. -/
def calculate_z_score (percentage : ℚ) : ℚ :=
  (percentage - 0.5) / 0.5

/-- `_determine_strength_category`: the professional threshold chain. -/
def determine_strength_category (percentage : ℚ) : PreferenceStrength :=
  if percentage < PROFESSIONAL_THRESHOLDS .SLIGHT then .SLIGHT
  else if percentage < PROFESSIONAL_THRESHOLDS .MODERATE then .MODERATE
  else if percentage < PROFESSIONAL_THRESHOLDS .CLEAR then .CLEAR
  else .VERY_CLEAR

/-- `DimensionAnalysis` dataclass. -/
structure DimensionAnalysis where
  dimension : PersonalityDimension
  raw_score : Nat
  total_questions : Nat
  percentage : ℚ
  preference_letter : Char
  strength_category : PreferenceStrength
  confidence_level : ℝ
  standard_error : ℝ
  z_score : ℚ

/-- Analysis phase of `_calculate_dimensional_analyses` for one pair:
dimensions with no data are absent from the dict; otherwise the dominant
side is the first letter when `first_score >= second_score`. -/
noncomputable def make_analysis (dim : PersonalityDimension) (c : DimCount) :
    Option DimensionAnalysis :=
  if c.total = 0 then none
  else
    let letters := dim_letters dim
    let pick :=
      if c.first_count ≥ c.second_count then (letters.1, c.first_count)
      else (letters.2, c.second_count)
    let percentage : ℚ := (pick.2 : ℚ) / (c.total : ℚ)
    some
      { dimension := dim,
        raw_score := pick.2,
        total_questions := c.total,
        percentage := percentage,
        preference_letter := pick.1,
        strength_category := determine_strength_category percentage,
        confidence_level := calculate_confidence_level pick.2 c.total,
        standard_error := calculate_standard_error percentage c.total,
        z_score := calculate_z_score percentage }

/-- `_calculate_dimensional_analyses`: the `analyses` dict, as a map from
dimension to an optional analysis. -/
noncomputable def calculate_dimensional_analyses
    (answers : List AssessmentAnswer) (questions : List Question) :
    PersonalityDimension → Option DimensionAnalysis :=
  fun dim => make_analysis dim ((enhanced_scores answers questions).get dim)

/-- `statistics.geometric_mean`: defined on nonempty lists of positive
values, raising `StatisticsError` otherwise. -/
noncomputable def geometric_mean (l : List ℝ) : Except ScoringError ℝ :=
  if l ≠ [] ∧ ∀ x ∈ l, 0 < x then
    .ok (l.prod ^ ((1 : ℝ) / (l.length : ℝ)))
  else .error .statisticsError

/-- `_determine_type_with_confidence`: letters and confidences per
dimension (dimensions absent from the analyses dict fall back to the
enhanced tie-breaking rule), then the geometric mean of the confidence
list. -/
noncomputable def determine_type_with_confidence
    (analyses : PersonalityDimension → Option DimensionAnalysis) :
    Except ScoringError (String × ℝ) :=
  let pick : PersonalityDimension → Char × ℝ := fun dim =>
    match analyses dim with
    | some a => (a.preference_letter, a.confidence_level)
    | none => ENHANCED_TIE_BREAKING_RULES dim
  let entries := [pick .EI, pick .SN, pick .TF, pick .JP]
  let type_code := String.mk (entries.map Prod.fst)
  match geometric_mean (entries.map Prod.snd) with
  | .ok g => .ok (type_code, g)
  | .error e => .error e

/-- `statistics.mean` over exact rationals. -/
def list_mean (l : List ℚ) : ℚ := l.sum / (l.length : ℚ)

/-- `statistics.variance`: the SAMPLE variance, with denominator
`n - 1` (the source calls `statistics.variance`, not `pvariance`). -/
def sample_variance (l : List ℚ) : ℚ :=
  ((l.map (fun x => (x - list_mean l) ^ 2)).sum) / ((l.length : ℚ) - 1)

/-- `statistics.mean` over the reals (confidence lists). -/
noncomputable def rlist_mean (l : List ℝ) : ℝ := l.sum / (l.length : ℝ)

/-- `statistics.stdev` over the reals: square root of the sample
variance. -/
noncomputable def rlist_stdev (l : List ℝ) : ℝ :=
  Real.sqrt (((l.map (fun x => (x - rlist_mean l) ^ 2)).sum) / ((l.length : ℝ) - 1))

/-- The numeric conversion of `_calculate_internal_consistency`:
`1 if selected_option == 'A' else 0`. -/
def numeric_response (a : AssessmentAnswer) : ℚ :=
  if a.selected_option == .A then 1 else 0

/-- The per-dimension response grouping of
`_calculate_internal_consistency` (answers whose question is unknown are
skipped; order of the answer list is preserved). -/
def dimension_responses (answers : List AssessmentAnswer)
    (questions : List Question) (dim : PersonalityDimension) : List ℚ :=
  answers.filterMap (fun a =>
    match find_question questions a.question_id with
    | some q => if q.dimension == dim then some (numeric_response a) else none
    | none => none)

/-- `_calculate_internal_consistency`: per dimension with at least two
responses, `1 - variance / 0.25`; the result is the mean over those
dimensions (0.5 when none qualifies).  No clamping is applied. -/
def calculate_internal_consistency (answers : List AssessmentAnswer)
    (questions : List Question) : ℚ :=
  let consistencies :=
    [PersonalityDimension.EI, .SN, .TF, .JP].filterMap (fun dim =>
      let responses := dimension_responses answers questions dim
      if responses.length > 1 then
        let variance := sample_variance responses
        let max_variance : ℚ := 0.25
        some (if max_variance > 0 then 1 - variance / max_variance else 1)
      else none)
  if consistencies ≠ [] then list_mean consistencies else 0.5

/-- `_calculate_response_consistency`: run-count regularity of the raw
A/B pattern, clamped to [0,1]. -/
def calculate_response_consistency (answers : List AssessmentAnswer) : ℚ :=
  let response_pattern := answers.map numeric_response
  let runs : Nat :=
    1 + ((response_pattern.zip response_pattern.tail).filter
          (fun p => p.1 ≠ p.2)).length
  let expected_runs : ℚ := (response_pattern.length : ℚ) / 2
  let run_quotient : ℚ := if expected_runs > 0 then (runs : ℚ) / expected_runs else 1
  max 0 (min 1 (1 - |run_quotient - 1|))

/-- `_calculate_extreme_response_bias`: `|aShare - 0.5| * 2`. -/
def calculate_extreme_response_bias (answers : List AssessmentAnswer) : ℚ :=
  if answers = [] then 0
  else
    let a_count := (answers.filter (fun a => a.selected_option == .A)).length
    |((a_count : ℚ) / (answers.length : ℚ)) - 0.5| * 2

/-- `_calculate_acquiescence_bias`: the same symmetric deviation, over
whether the chosen option mapped to the first trait, restricted to
answers with a known question. -/
def calculate_acquiescence_bias (answers : List AssessmentAnswer)
    (questions : List Question) : ℚ :=
  if answers = [] then 0
  else
    let mappable := answers.filterMap (fun a =>
      (find_question questions a.question_id).map (maps_to_first a))
    if mappable.length = 0 then 0
    else
      let first_trait_choices := (mappable.filter (fun b => b)).length
      |((first_trait_choices : ℚ) / (mappable.length : ℚ)) - 0.5| * 2

/-- `StatisticalMetrics` dataclass. -/
structure StatisticalMetrics where
  internal_consistency : ℚ
  response_consistency : ℚ
  extreme_response_bias : ℚ
  acquiescence_bias : ℚ
  response_time_variance : ℚ
  confidence_interval : ℝ × ℝ

/-- The `analyses.values()` iteration order: the dict literal inserts
EI, SN, TF, JP in that order, so present dimensions are listed so. -/
noncomputable def present_analyses
    (analyses : PersonalityDimension → Option DimensionAnalysis) :
    List DimensionAnalysis :=
  [PersonalityDimension.EI, .SN, .TF, .JP].filterMap analyses

/-- `_calculate_statistical_metrics`. -/
noncomputable def calculate_statistical_metrics
    (answers : List AssessmentAnswer) (questions : List Question)
    (analyses : PersonalityDimension → Option DimensionAnalysis) :
    StatisticalMetrics :=
  let confidence_scores := (present_analyses analyses).map (·.confidence_level)
  let confidence_interval :=
    if confidence_scores ≠ [] then
      let mean_confidence := rlist_mean confidence_scores
      let std_confidence :=
        if confidence_scores.length > 1 then rlist_stdev confidence_scores
        else (0.1 : ℝ)
      (max 0 (mean_confidence - 1.96 * std_confidence),
       min 1 (mean_confidence + 1.96 * std_confidence))
    else ((0 : ℝ), (1 : ℝ))
  { internal_consistency := calculate_internal_consistency answers questions,
    response_consistency := calculate_response_consistency answers,
    extreme_response_bias := calculate_extreme_response_bias answers,
    acquiescence_bias := calculate_acquiescence_bias answers questions,
    response_time_variance := 0.5,
    confidence_interval := confidence_interval }

/-- `_identify_borderline_dimensions_enhanced`. -/
noncomputable def identify_borderline_dimensions_enhanced
    (analyses : PersonalityDimension → Option DimensionAnalysis) :
    List String :=
  [PersonalityDimension.EI, .SN, .TF, .JP].filterMap (fun dim =>
    (analyses dim).bind (fun a =>
      let close_to_neutral := |a.percentage - 0.5| < 0.1
      let low_confidence := a.confidence_level < 0.7
      let high_uncertainty := a.standard_error > 0.15
      if close_to_neutral ∨ (low_confidence ∧ high_uncertainty) then
        some (dim_name dim)
      else none))

/-- `_predict_type_stability`: the 0.4/0.3/0.2/0.1 weighted heuristic,
clamped to [0,1]. -/
noncomputable def predict_type_stability
    (analyses : PersonalityDimension → Option DimensionAnalysis)
    (metrics : StatisticalMetrics) : ℝ :=
  let strength_scores := (present_analyses analyses).map (·.percentage)
  let confidence_scores := (present_analyses analyses).map (·.confidence_level)
  if strength_scores = [] ∨ confidence_scores = [] then 0.5
  else
    let avg_strength : ℚ :=
      list_mean (strength_scores.map (fun score => |score - 0.5| * 2))
    let avg_confidence := rlist_mean confidence_scores
    let stat_quality : ℚ :=
      (metrics.internal_consistency + metrics.response_consistency) / 2
    let bias_penalty : ℚ :=
      (metrics.extreme_response_bias + metrics.acquiescence_bias) / 2
    max 0 (min 1 ((avg_strength : ℝ) * 0.4 + avg_confidence * 0.3 +
                  (stat_quality : ℝ) * 0.2 - (bias_penalty : ℝ) * 0.1))

/-- `_calculate_assessment_quality`: the mean of the four statistical
factors plus (when any dimension is present) the average confidence. -/
noncomputable def calculate_assessment_quality (metrics : StatisticalMetrics)
    (analyses : PersonalityDimension → Option DimensionAnalysis) : ℝ :=
  let quality_factors : List ℝ :=
    [(metrics.internal_consistency : ℝ),
     (metrics.response_consistency : ℝ),
     (1 : ℝ) - (metrics.extreme_response_bias : ℝ),
     (1 : ℝ) - (metrics.acquiescence_bias : ℝ)] ++
    (if present_analyses analyses ≠ [] then
      [rlist_mean ((present_analyses analyses).map (·.confidence_level))]
     else [])
  rlist_mean quality_factors

/-- `_should_recommend_retesting`. -/
noncomputable def should_recommend_retesting (quality_score type_confidence : ℝ) :
    Bool :=
  quality_score < (QUALITY_THRESHOLDS "acceptable" : ℝ) ∨ type_confidence < 0.6

/-- `EnhancedPersonalityResult` dataclass (the fields the scoring and
write-back paths read; the free-text recommendation lists are not
modelled). -/
structure EnhancedPersonalityResult where
  personality_type : String
  type_code : String
  type_confidence : ℝ
  dimension_analyses : PersonalityDimension → Option DimensionAnalysis
  statistical_metrics : StatisticalMetrics
  borderline_dimensions : List String
  type_stability_prediction : ℝ
  assessment_quality_score : ℝ
  retesting_recommended : Bool
  preference_strengths : List (String × ℚ)
  preference_clarity : List (String × PreferenceStrength)

/-- `_update_session_with_enhanced_results`: same write-back shape as the
basic variant, reading the letter keys `"E"`, `"S"`, `"T"`, `"J"` from
the enhanced strength dict (which is keyed by pair names). -/
def update_session_with_enhanced_results
    (types_table : List PersonalityTypeRec) (session : AssessmentSession)
    (result : EnhancedPersonalityResult) : AssessmentSession :=
  let session :=
    match types_table.find? (fun t => t.code == result.type_code) with
    | some pt => { session with personality_type_id := some pt.id }
    | none => session
  { session with
    e_strength := dict_get result.preference_strengths "E" 0,
    s_strength := dict_get result.preference_strengths "S" 0,
    t_strength := dict_get result.preference_strengths "T" 0,
    j_strength := dict_get result.preference_strengths "J" 0,
    ei_clarity := dict_find? result.preference_clarity "EI",
    sn_clarity := dict_find? result.preference_clarity "SN",
    tf_clarity := dict_find? result.preference_clarity "TF",
    jp_clarity := dict_find? result.preference_clarity "JP" }

/-- `calculate_enhanced_personality_type` (ScoreFromSession, enhanced
variant). -/
noncomputable def calculate_enhanced_personality_type
    (session : AssessmentSession) (answers : List AssessmentAnswer)
    (active_questions : List Question)
    (types_table : List PersonalityTypeRec) :
    Except ScoringError EnhancedPersonalityResult × AssessmentSession :=
  if !session.is_completed then (.error .sessionNotCompleted, session)
  else if answers.length ≠ 36 then (.error .incompleteAssessment, session)
  else
    let analyses := calculate_dimensional_analyses answers active_questions
    match determine_type_with_confidence analyses with
    | .error e => (.error e, session)
    | .ok tc =>
      let metrics := calculate_statistical_metrics answers active_questions analyses
      let borderline := identify_borderline_dimensions_enhanced analyses
      let stability := predict_type_stability analyses metrics
      let quality := calculate_assessment_quality metrics analyses
      let retesting := should_recommend_retesting quality tc.2
      let type_name :=
        match types_table.find? (fun t => t.code == tc.1) with
        | some pt => pt.name_en
        | none => "Type " ++ tc.1
      let pref_strengths : List (String × ℚ) :=
        [PersonalityDimension.EI, .SN, .TF, .JP].filterMap (fun dim =>
          (analyses dim).map (fun a => (dim_name dim, a.percentage)))
      let pref_clarity : List (String × PreferenceStrength) :=
        [PersonalityDimension.EI, .SN, .TF, .JP].filterMap (fun dim =>
          (analyses dim).map (fun a => (dim_name dim, a.strength_category)))
      let result : EnhancedPersonalityResult :=
        { personality_type := type_name,
          type_code := tc.1,
          type_confidence := tc.2,
          dimension_analyses := analyses,
          statistical_metrics := metrics,
          borderline_dimensions := borderline,
          type_stability_prediction := stability,
          assessment_quality_score := quality,
          retesting_recommended := retesting,
          preference_strengths := pref_strengths,
          preference_clarity := pref_clarity }
      (.ok result, update_session_with_enhanced_results types_table session result)

/-- Type code projection of the enhanced entry point. -/
noncomputable def enhanced_type_code (session : AssessmentSession)
    (answers : List AssessmentAnswer) (active_questions : List Question)
    (types_table : List PersonalityTypeRec) : Option String :=
  match (calculate_enhanced_personality_type session answers active_questions
          types_table).1 with
  | .ok r => some r.type_code
  | .error _ => none

/-- Overall type confidence projection of the enhanced entry point. -/
noncomputable def enhanced_type_confidence (session : AssessmentSession)
    (answers : List AssessmentAnswer) (active_questions : List Question)
    (types_table : List PersonalityTypeRec) : Option ℝ :=
  match (calculate_enhanced_personality_type session answers active_questions
          types_table).1 with
  | .ok r => some r.type_confidence
  | .error _ => none

/-- Strength-dict projection of the enhanced entry point. -/
noncomputable def enhanced_strengths_dict (session : AssessmentSession)
    (answers : List AssessmentAnswer) (active_questions : List Question)
    (types_table : List PersonalityTypeRec) : Option (List (String × ℚ)) :=
  match (calculate_enhanced_personality_type session answers active_questions
          types_table).1 with
  | .ok r => some r.preference_strengths
  | .error _ => none

/-- Session-after projection of the enhanced entry point. -/
noncomputable def enhanced_session_after (session : AssessmentSession)
    (answers : List AssessmentAnswer) (active_questions : List Question)
    (types_table : List PersonalityTypeRec) : AssessmentSession :=
  (calculate_enhanced_personality_type session answers active_questions
    types_table).2

/-! ## Test fixtures -/

/-- A completed session with clean result fields. -/
def sess0 : AssessmentSession :=
  { id := 1, is_completed := true, personality_type_id := none,
    e_strength := 0, s_strength := 0, t_strength := 0, j_strength := 0,
    ei_clarity := none, sn_clarity := none, tf_clarity := none,
    jp_clarity := none }

/-- The standard catalog shape: 36 active questions, 9 per dimension in
blocks, option A mapping to the first letter everywhere. -/
def cat9 : List Question :=
  (List.range 36).map (fun i =>
    { id := i + 1,
      dimension := if i < 9 then .EI else if i < 18 then .SN
                   else if i < 27 then .TF else .JP,
      option_a_maps_to_first := true })

/-- A catalog with an even EI block (2 questions) so that an exact EI tie
is reachable: 2 + 11 + 11 + 12 = 36. -/
def cat_tied : List Question :=
  (List.range 36).map (fun i =>
    { id := i + 1,
      dimension := if i < 2 then .EI else if i < 13 then .SN
                   else if i < 24 then .TF else .JP,
      option_a_maps_to_first := true })

/-- The degenerate all-A answer set. -/
def answers_all_A : List AssessmentAnswer :=
  (List.range 36).map (fun i => { question_id := i + 1, selected_option := .A })

/-- The degenerate fully-alternating answer set (A, B, A, B, …). -/
def answers_alternating : List AssessmentAnswer :=
  (List.range 36).map (fun i =>
    { question_id := i + 1,
      selected_option := if i % 2 = 0 then .A else .B })

/-- All A except the second answer: ties the 2-question EI block of
`cat_tied` at 1–1. -/
def answers_tie_EI : List AssessmentAnswer :=
  (List.range 36).map (fun i =>
    { question_id := i + 1,
      selected_option := if i = 1 then .B else .A })

/-- 36 answers of which one references question id 999, which no catalog
contains. -/
def answers_unknown : List AssessmentAnswer :=
  (List.range 35).map (fun i => { question_id := i + 1, selected_option := .A }) ++
  [{ question_id := 999, selected_option := .A }]

/-- 35 answers: one short of a complete assessment. -/
def answers35 : List AssessmentAnswer :=
  (List.range 35).map (fun i => { question_id := i + 1, selected_option := .A })

/-! ## Helper lemmas -/

/-- Any fold whose step ignores answers with unknown question ids
computes the same value on the filtered answer list. -/
theorem foldl_skip_unknown {σ : Type} (questions : List Question)
    (f : σ → AssessmentAnswer → σ)
    (hf : ∀ s a, find_question questions a.question_id = none → f s a = s) :
    ∀ (answers : List AssessmentAnswer) (init : σ),
      answers.foldl f init =
      (answers.filter
        (fun a => (find_question questions a.question_id).isSome)).foldl f init := by
  intro answers
  induction answers with
  | nil => intro init; rfl
  | cons a rest ih =>
    intro init
    cases hq : find_question questions a.question_id with
    | some q =>
      have hpos : ((fun a => (find_question questions a.question_id).isSome) a) = true := by
        simp [hq]
      rw [List.filter_cons, if_pos hpos, List.foldl_cons, List.foldl_cons, ih]
    | none =>
      have hneg : ¬ ((fun a => (find_question questions a.question_id).isSome) a) = true := by
        simp [hq]
      rw [List.filter_cons, if_neg hneg, List.foldl_cons, hf _ _ hq, ih]

/-- Arithmetic facts about one tally pair: the winning share is
`max a b / (a + b)`, it lies in `[1/2, 1]`, it is exactly `1/2` on a
tie, and the two shares sum to 1. -/
theorem pair_strength_props (a b : Nat) (h : 0 < a + b) :
    max ((a : ℚ) / ((a + b : ℕ) : ℚ)) ((b : ℚ) / ((a + b : ℕ) : ℚ)) =
      ((max a b : ℕ) : ℚ) / ((a + b : ℕ) : ℚ) ∧
    1 / 2 ≤ ((max a b : ℕ) : ℚ) / ((a + b : ℕ) : ℚ) ∧
    ((max a b : ℕ) : ℚ) / ((a + b : ℕ) : ℚ) ≤ 1 ∧
    (a : ℚ) / ((a + b : ℕ) : ℚ) + (b : ℚ) / ((a + b : ℕ) : ℚ) = 1 ∧
    (a = b → ((max a b : ℕ) : ℚ) / ((a + b : ℕ) : ℚ) = 1 / 2) := by
  have htot : (0 : ℚ) < ((a + b : ℕ) : ℚ) := by exact_mod_cast h
  refine ⟨?_, ?_, ?_, ?_, ?_⟩
  · rw [Nat.cast_max]
    rcases le_total (a : ℚ) (b : ℚ) with hab | hab
    · rw [max_eq_right hab, max_eq_right (by gcongr)]
    · rw [max_eq_left hab, max_eq_left (by gcongr)]
  · have hmax : a + b ≤ 2 * max a b := by omega
    rw [le_div_iff₀ htot]
    have hcast : ((a + b : ℕ) : ℚ) ≤ 2 * ((max a b : ℕ) : ℚ) := by
      exact_mod_cast hmax
    linarith
  · rw [div_le_one htot]
    exact_mod_cast Nat.max_le.mpr ⟨Nat.le_add_right a b, Nat.le_add_left b a⟩
  · rw [div_add_div_same]
    rw [div_eq_one_iff_eq (ne_of_gt htot)]
    push_cast
    ring
  · intro hab
    subst hab
    rw [max_self]
    rw [div_eq_iff (ne_of_gt htot)]
    push_cast
    ring

/-! ## Claim C3 -/

/-- Claim-side resolver for one pair, following the spec's words:
strict majority wins, an exact tie emits the fixed tie-break letter. -/
def spec_resolve (first_count second_count : Nat)
    (first_letter second_letter tie_letter : Char) : Char :=
  if second_count < first_count then first_letter
  else if first_count < second_count then second_letter
  else tie_letter

/-- C3: for every tally, the basic Type Resolver emits the strict
majority letter per pair and the fixed tie-break letter (I, N, F, P) on
an exact tie — independently per pair — concatenated in the fixed order
EI, SN, TF, JP. -/
theorem c3_tie_break_policy (scores : PersonalityScores) :
    determine_personality_type scores =
      String.mk
        [spec_resolve scores.e_score scores.i_score 'E' 'I' 'I',
         spec_resolve scores.s_score scores.n_score 'S' 'N' 'N',
         spec_resolve scores.t_score scores.f_score 'T' 'F' 'F',
         spec_resolve scores.j_score scores.p_score 'J' 'P' 'P'] := rfl

/-! ## Claim C9 -/

/-- C9: the basic clarity classifier uses the ascending thresholds
0.60 / 0.75 / 0.90 and the enhanced one the professional thresholds
0.56 / 0.66 / 0.76; the two threshold tables are distinct configurations
and classify (for example) a 0.58 strength differently. -/
theorem c9_threshold_tables (strength : ℚ) :
    (clarity_of_strength strength =
      (if strength < 0.60 then PreferenceStrength.SLIGHT
       else if strength < 0.75 then PreferenceStrength.MODERATE
       else if strength < 0.90 then PreferenceStrength.CLEAR
       else PreferenceStrength.VERY_CLEAR)) ∧
    (determine_strength_category strength =
      (if strength < 0.56 then PreferenceStrength.SLIGHT
       else if strength < 0.66 then PreferenceStrength.MODERATE
       else if strength < 0.76 then PreferenceStrength.CLEAR
       else PreferenceStrength.VERY_CLEAR)) ∧
    STRENGTH_THRESHOLDS ≠ PROFESSIONAL_THRESHOLDS ∧
    clarity_of_strength 0.58 = PreferenceStrength.SLIGHT ∧
    determine_strength_category 0.58 = PreferenceStrength.MODERATE := by
  refine ⟨rfl, rfl, ?_, ?_, ?_⟩
  · intro hmerge
    have h := congrFun hmerge PreferenceStrength.SLIGHT
    simp only [STRENGTH_THRESHOLDS, PROFESSIONAL_THRESHOLDS] at h
    norm_num at h
  · norm_num [clarity_of_strength, STRENGTH_THRESHOLDS]
  · norm_num [determine_strength_category, PROFESSIONAL_THRESHOLDS]

/-! ## Claim C10 -/

/-- C10: the raw-response entry point never writes to the session store:
for every input (valid or invalid) and every outcome of the neutral-
response coin, the session it returns is the session it was given. -/
theorem c10_raw_responses_no_write (session : AssessmentSession)
    (responses : List Int) (active_questions : List Question)
    (types_table : List PersonalityTypeRec) (coin : Nat → SelectedOption) :
    (calculate_personality_type_from_responses session responses
      active_questions types_table coin).2 = session := by
  unfold calculate_personality_type_from_responses
  split
  · rfl
  · split
    · rfl
    · split
      · rfl
      · rfl

/-! ## Claim C4 -/

/-- C4: with a completed session, an answer count different from 36
makes the basic session entry point fail with `IncompleteAssessment`,
and the returned session is exactly the input session — no field is
touched. -/
theorem c4_incomplete_no_partial_write (session : AssessmentSession)
    (answers : List AssessmentAnswer) (active_questions : List Question)
    (types_table : List PersonalityTypeRec)
    (hc : session.is_completed = true) (hn : answers.length ≠ 36) :
    calculate_personality_type session answers active_questions types_table =
      (.error .incompleteAssessment, session) := by
  unfold calculate_personality_type
  rw [hc]
  simp only [Bool.not_true, Bool.false_eq_true, if_false]
  rw [if_pos hn]

/-- Witness for C4 at a concrete 35-answer submission. -/
theorem c4_witness :
    sess0.is_completed = true ∧ answers35.length ≠ 36 ∧
    calculate_personality_type sess0 answers35 cat9 [] =
      (.error .incompleteAssessment, sess0) :=
  ⟨rfl, by decide,
   c4_incomplete_no_partial_write sess0 answers35 cat9 [] rfl (by decide)⟩

/-! ## Claim C7 -/

/-- C7 fails on the code: on the fully-alternating 36-answer input over
the standard 9-per-dimension catalog, the enhanced variant's internal
consistency evaluates to -1/9, outside [0,1] (the source divides a
SAMPLE variance, which reaches 5/18 > 1/4 here, by the population
maximum 1/4). -/
theorem c7_internal_consistency_negative :
    answers_alternating.length = 36 ∧
    calculate_internal_consistency answers_alternating cat9 = -(1 / 9) ∧
    calculate_internal_consistency answers_alternating cat9 < 0 := by
  have hEI : dimension_responses answers_alternating cat9 .EI =
      [1, 0, 1, 0, 1, 0, 1, 0, 1] := by decide
  have hSN : dimension_responses answers_alternating cat9 .SN =
      [0, 1, 0, 1, 0, 1, 0, 1, 0] := by decide
  have hTF : dimension_responses answers_alternating cat9 .TF =
      [1, 0, 1, 0, 1, 0, 1, 0, 1] := by decide
  have hJP : dimension_responses answers_alternating cat9 .JP =
      [0, 1, 0, 1, 0, 1, 0, 1, 0] := by decide
  have hval : calculate_internal_consistency answers_alternating cat9 = -(1 / 9) := by
    unfold calculate_internal_consistency
    simp only [List.filterMap_cons, List.filterMap_nil, hEI, hSN, hTF, hJP]
    norm_num [sample_variance, list_mean, List.sum_cons, List.map_cons,
      List.sum_nil, List.map_nil, List.length_cons, List.length_nil]
    simp
  exact ⟨by decide, hval, by rw [hval]; norm_num⟩

/-! ## Claim C2 -/

/-- C2 as amended: both tally loops silently skip any answer whose
question id is not in the active catalog — the tally equals the tally of
the filtered answer list, and no error is raised for the dropped
answers. -/
theorem c2_unknown_questions_skipped (answers : List AssessmentAnswer)
    (questions : List Question) :
    calculate_dimension_scores answers questions =
      calculate_dimension_scores
        (answers.filter (fun a => (find_question questions a.question_id).isSome))
        questions ∧
    enhanced_scores answers questions =
      enhanced_scores
        (answers.filter (fun a => (find_question questions a.question_id).isSome))
        questions := by
  constructor
  · exact foldl_skip_unknown questions (apply_answer questions)
      (fun s a h => by unfold apply_answer; rw [h]) answers {}
  · exact foldl_skip_unknown questions (enhanced_apply_answer questions)
      (fun s a h => by unfold enhanced_apply_answer; rw [h]) answers {}

/-- Counterexample to C2 as stated: a complete 36-answer set containing
an answer for the unknown question id 999 is scored successfully (type
"ESTJ"), instead of failing with an unknown-question error. -/
theorem c2_counterexample :
    find_question cat9 999 = none ∧
    (answers_unknown.filter (fun a => a.question_id == 999)).length = 1 ∧
    answers_unknown.length = 36 ∧
    basic_type_code sess0 answers_unknown cat9 [] = some "ESTJ" := by
  decide

/-! ## Claim C8 -/

/-- C8: for every tally and every pair with positive total, the strength
dict contains the two complementary shares, the winning-side strength is
`max(countFirst, countSecond) / total`, it lies in [1/2, 1] and equals
1/2 exactly on a tie, and the two shares sum to 1. -/
theorem c8_strength_bounds (s : PersonalityScores) :
    (0 < s.e_score + s.i_score →
      ("E", (s.e_score : ℚ) / ((s.e_score + s.i_score : ℕ) : ℚ)) ∈
        calculate_preference_strengths s ∧
      ("I", (s.i_score : ℚ) / ((s.e_score + s.i_score : ℕ) : ℚ)) ∈
        calculate_preference_strengths s ∧
      max ((s.e_score : ℚ) / ((s.e_score + s.i_score : ℕ) : ℚ))
          ((s.i_score : ℚ) / ((s.e_score + s.i_score : ℕ) : ℚ)) =
        ((max s.e_score s.i_score : ℕ) : ℚ) / ((s.e_score + s.i_score : ℕ) : ℚ) ∧
      1 / 2 ≤ ((max s.e_score s.i_score : ℕ) : ℚ) / ((s.e_score + s.i_score : ℕ) : ℚ) ∧
      ((max s.e_score s.i_score : ℕ) : ℚ) / ((s.e_score + s.i_score : ℕ) : ℚ) ≤ 1 ∧
      (s.e_score : ℚ) / ((s.e_score + s.i_score : ℕ) : ℚ) +
        (s.i_score : ℚ) / ((s.e_score + s.i_score : ℕ) : ℚ) = 1 ∧
      (s.e_score = s.i_score →
        ((max s.e_score s.i_score : ℕ) : ℚ) / ((s.e_score + s.i_score : ℕ) : ℚ) = 1 / 2)) ∧
    (0 < s.s_score + s.n_score →
      ("S", (s.s_score : ℚ) / ((s.s_score + s.n_score : ℕ) : ℚ)) ∈
        calculate_preference_strengths s ∧
      ("N", (s.n_score : ℚ) / ((s.s_score + s.n_score : ℕ) : ℚ)) ∈
        calculate_preference_strengths s ∧
      max ((s.s_score : ℚ) / ((s.s_score + s.n_score : ℕ) : ℚ))
          ((s.n_score : ℚ) / ((s.s_score + s.n_score : ℕ) : ℚ)) =
        ((max s.s_score s.n_score : ℕ) : ℚ) / ((s.s_score + s.n_score : ℕ) : ℚ) ∧
      1 / 2 ≤ ((max s.s_score s.n_score : ℕ) : ℚ) / ((s.s_score + s.n_score : ℕ) : ℚ) ∧
      ((max s.s_score s.n_score : ℕ) : ℚ) / ((s.s_score + s.n_score : ℕ) : ℚ) ≤ 1 ∧
      (s.s_score : ℚ) / ((s.s_score + s.n_score : ℕ) : ℚ) +
        (s.n_score : ℚ) / ((s.s_score + s.n_score : ℕ) : ℚ) = 1 ∧
      (s.s_score = s.n_score →
        ((max s.s_score s.n_score : ℕ) : ℚ) / ((s.s_score + s.n_score : ℕ) : ℚ) = 1 / 2)) ∧
    (0 < s.t_score + s.f_score →
      ("T", (s.t_score : ℚ) / ((s.t_score + s.f_score : ℕ) : ℚ)) ∈
        calculate_preference_strengths s ∧
      ("F", (s.f_score : ℚ) / ((s.t_score + s.f_score : ℕ) : ℚ)) ∈
        calculate_preference_strengths s ∧
      max ((s.t_score : ℚ) / ((s.t_score + s.f_score : ℕ) : ℚ))
          ((s.f_score : ℚ) / ((s.t_score + s.f_score : ℕ) : ℚ)) =
        ((max s.t_score s.f_score : ℕ) : ℚ) / ((s.t_score + s.f_score : ℕ) : ℚ) ∧
      1 / 2 ≤ ((max s.t_score s.f_score : ℕ) : ℚ) / ((s.t_score + s.f_score : ℕ) : ℚ) ∧
      ((max s.t_score s.f_score : ℕ) : ℚ) / ((s.t_score + s.f_score : ℕ) : ℚ) ≤ 1 ∧
      (s.t_score : ℚ) / ((s.t_score + s.f_score : ℕ) : ℚ) +
        (s.f_score : ℚ) / ((s.t_score + s.f_score : ℕ) : ℚ) = 1 ∧
      (s.t_score = s.f_score →
        ((max s.t_score s.f_score : ℕ) : ℚ) / ((s.t_score + s.f_score : ℕ) : ℚ) = 1 / 2)) ∧
    (0 < s.j_score + s.p_score →
      ("J", (s.j_score : ℚ) / ((s.j_score + s.p_score : ℕ) : ℚ)) ∈
        calculate_preference_strengths s ∧
      ("P", (s.p_score : ℚ) / ((s.j_score + s.p_score : ℕ) : ℚ)) ∈
        calculate_preference_strengths s ∧
      max ((s.j_score : ℚ) / ((s.j_score + s.p_score : ℕ) : ℚ))
          ((s.p_score : ℚ) / ((s.j_score + s.p_score : ℕ) : ℚ)) =
        ((max s.j_score s.p_score : ℕ) : ℚ) / ((s.j_score + s.p_score : ℕ) : ℚ) ∧
      1 / 2 ≤ ((max s.j_score s.p_score : ℕ) : ℚ) / ((s.j_score + s.p_score : ℕ) : ℚ) ∧
      ((max s.j_score s.p_score : ℕ) : ℚ) / ((s.j_score + s.p_score : ℕ) : ℚ) ≤ 1 ∧
      (s.j_score : ℚ) / ((s.j_score + s.p_score : ℕ) : ℚ) +
        (s.p_score : ℚ) / ((s.j_score + s.p_score : ℕ) : ℚ) = 1 ∧
      (s.j_score = s.p_score →
        ((max s.j_score s.p_score : ℕ) : ℚ) / ((s.j_score + s.p_score : ℕ) : ℚ) = 1 / 2)) := by
  refine ⟨fun hEI => ?_, fun hSN => ?_, fun hTF => ?_, fun hJP => ?_⟩ <;>
    [skip; skip; skip; skip]
  · obtain ⟨h1, h2, h3, h4, h5⟩ := pair_strength_props s.e_score s.i_score hEI
    refine ⟨?_, ?_, h1, h2, h3, h4, h5⟩ <;>
      · unfold calculate_preference_strengths
        simp only [List.mem_append]
        left; left; left
        rw [if_pos hEI]
        simp
  · obtain ⟨h1, h2, h3, h4, h5⟩ := pair_strength_props s.s_score s.n_score hSN
    refine ⟨?_, ?_, h1, h2, h3, h4, h5⟩ <;>
      · unfold calculate_preference_strengths
        simp only [List.mem_append]
        left; left; right
        rw [if_pos hSN]
        simp
  · obtain ⟨h1, h2, h3, h4, h5⟩ := pair_strength_props s.t_score s.f_score hTF
    refine ⟨?_, ?_, h1, h2, h3, h4, h5⟩ <;>
      · unfold calculate_preference_strengths
        simp only [List.mem_append]
        left; right
        rw [if_pos hTF]
        simp
  · obtain ⟨h1, h2, h3, h4, h5⟩ := pair_strength_props s.j_score s.p_score hJP
    refine ⟨?_, ?_, h1, h2, h3, h4, h5⟩ <;>
      · unfold calculate_preference_strengths
        simp only [List.mem_append]
        right
        rw [if_pos hJP]
        simp

/-- Witness for C8 at a concrete 5–4 / 6–3 / 9–0 / 4–5 tally. -/
theorem c8_witness :
    (0 < (5 : Nat) + 4) ∧
    (("E", ((5 : ℕ) : ℚ) / (((5 + 4 : ℕ) : ℕ) : ℚ)) ∈
      calculate_preference_strengths
        { e_score := 5, i_score := 4, s_score := 6, n_score := 3,
          t_score := 9, f_score := 0, j_score := 4, p_score := 5 } ∧
     ("I", ((4 : ℕ) : ℚ) / (((5 + 4 : ℕ) : ℕ) : ℚ)) ∈
      calculate_preference_strengths
        { e_score := 5, i_score := 4, s_score := 6, n_score := 3,
          t_score := 9, f_score := 0, j_score := 4, p_score := 5 } ∧
     max (((5 : ℕ) : ℚ) / (((5 + 4 : ℕ) : ℕ) : ℚ))
         (((4 : ℕ) : ℚ) / (((5 + 4 : ℕ) : ℕ) : ℚ)) =
       ((max 5 4 : ℕ) : ℚ) / (((5 + 4 : ℕ) : ℕ) : ℚ) ∧
     1 / 2 ≤ ((max 5 4 : ℕ) : ℚ) / (((5 + 4 : ℕ) : ℕ) : ℚ) ∧
     ((max 5 4 : ℕ) : ℚ) / (((5 + 4 : ℕ) : ℕ) : ℚ) ≤ 1 ∧
     ((5 : ℕ) : ℚ) / (((5 + 4 : ℕ) : ℕ) : ℚ) +
       ((4 : ℕ) : ℚ) / (((5 + 4 : ℕ) : ℕ) : ℚ) = 1 ∧
     ((5 : ℕ) = (4 : ℕ) →
       ((max 5 4 : ℕ) : ℚ) / (((5 + 4 : ℕ) : ℕ) : ℚ) = 1 / 2)) :=
  ⟨by decide,
   (c8_strength_bounds
     { e_score := 5, i_score := 4, s_score := 6, n_score := 3,
       t_score := 9, f_score := 0, j_score := 4, p_score := 5 }).1
     (by decide)⟩

/-! ## Enhanced-pipeline helper lemmas -/

/-- Confidence of an exact 1–1 tie (small-sample branch): zero. -/
theorem confidence_one_one_two : calculate_confidence_level 1 2 = 0 := by
  simp only [calculate_confidence_level]
  norm_num

/-- Confidence of a unanimous 9-question dimension: the margin of error
degenerates to zero and the fallback confidence 1 is returned. -/
theorem confidence_nine_nine : calculate_confidence_level 9 9 = 1 := by
  simp only [calculate_confidence_level]
  norm_num [Real.sqrt_zero]

/-- A strict winner (2·raw > total > 0) always has positive confidence,
in both the normal-approximation and the small-sample branch. -/
theorem calculate_confidence_level_pos (raw total : Nat)
    (h0 : 0 < total) (hwin : total < 2 * raw) :
    0 < calculate_confidence_level raw total := by
  simp only [calculate_confidence_level]
  rw [if_neg (by omega)]
  have htotR : (0 : ℝ) < (total : ℝ) := by exact_mod_cast h0
  have hp : (0.5 : ℝ) < (raw : ℝ) / (total : ℝ) := by
    rw [lt_div_iff₀ htotR]
    have : (total : ℝ) < 2 * (raw : ℝ) := by exact_mod_cast hwin
    linarith
  have hd : (0 : ℝ) < |(raw : ℝ) / (total : ℝ) - 0.5| := by
    rw [abs_pos]
    intro hzero
    have : (raw : ℝ) / (total : ℝ) = 0.5 := by linarith
    linarith
  by_cases h5 : total > 5
  · rw [if_pos h5]
    by_cases hm :
        1.96 * Real.sqrt ((raw : ℝ) / (total : ℝ) *
          (1 - (raw : ℝ) / (total : ℝ)) / (total : ℝ)) > 0
    · rw [if_pos hm]
      have hq : (0 : ℝ) < |(raw : ℝ) / (total : ℝ) - 0.5| /
          (1.96 * Real.sqrt ((raw : ℝ) / (total : ℝ) *
            (1 - (raw : ℝ) / (total : ℝ)) / (total : ℝ))) := div_pos hd hm
      have h1 : (0 : ℝ) < min 1 (|(raw : ℝ) / (total : ℝ) - 0.5| /
          (1.96 * Real.sqrt ((raw : ℝ) / (total : ℝ) *
            (1 - (raw : ℝ) / (total : ℝ)) / (total : ℝ)))) :=
        lt_min one_pos hq
      have h2 := lt_min one_pos h1
      exact lt_of_lt_of_le h2 (le_max_right 0 _)
    · rw [if_neg hm]
      norm_num
  · rw [if_neg h5]
    have h1 : (0 : ℝ) < |(raw : ℝ) / (total : ℝ) - 0.5| * 2 := by positivity
    exact lt_of_lt_of_le (lt_min one_pos h1) (le_max_right 0 _)

/-- On success, the geometric mean is the `1/n`-th power of the product. -/
theorem geometric_mean_ok (l : List ℝ) (h : l ≠ [] ∧ ∀ x ∈ l, 0 < x) :
    geometric_mean l = .ok (l.prod ^ ((1 : ℝ) / (l.length : ℝ))) := by
  unfold geometric_mean
  rw [if_pos h]

/-- Correspondence invariant between the enhanced counting dict and the
basic score counters: matching per-letter counts and totals that are the
pair sums. -/
def counts_agree (d : EnhancedScoresDict) (s : PersonalityScores) : Prop :=
  d.EI.first_count = s.e_score ∧ d.EI.second_count = s.i_score ∧
  d.SN.first_count = s.s_score ∧ d.SN.second_count = s.n_score ∧
  d.TF.first_count = s.t_score ∧ d.TF.second_count = s.f_score ∧
  d.JP.first_count = s.j_score ∧ d.JP.second_count = s.p_score ∧
  d.EI.total = s.e_score + s.i_score ∧ d.SN.total = s.s_score + s.n_score ∧
  d.TF.total = s.t_score + s.f_score ∧ d.JP.total = s.j_score + s.p_score

theorem counts_agree_step (questions : List Question) (d : EnhancedScoresDict)
    (s : PersonalityScores) (a : AssessmentAnswer) (h : counts_agree d s) :
    counts_agree (enhanced_apply_answer questions d a)
      (apply_answer questions s a) := by
  obtain ⟨h1, h2, h3, h4, h5, h6, h7, h8, h9, h10, h11, h12⟩ := h
  unfold enhanced_apply_answer apply_answer
  cases hq : find_question questions a.question_id with
  | none => exact ⟨h1, h2, h3, h4, h5, h6, h7, h8, h9, h10, h11, h12⟩
  | some q =>
    cases hd : q.dimension <;> cases hm : maps_to_first a q <;>
      simp [hd, hm, counts_agree, DimCount.bump,
        h1, h2, h3, h4, h5, h6, h7, h8, h9, h10, h11, h12] <;>
      omega

theorem counts_agree_fold (questions : List Question) :
    ∀ (answers : List AssessmentAnswer) (d : EnhancedScoresDict)
      (s : PersonalityScores), counts_agree d s →
      counts_agree (answers.foldl (enhanced_apply_answer questions) d)
        (answers.foldl (apply_answer questions) s) := by
  intro answers
  induction answers with
  | nil => intro d s h; exact h
  | cons a rest ih =>
    intro d s h
    exact ih _ _ (counts_agree_step questions d s a h)

theorem enhanced_scores_agree (answers : List AssessmentAnswer)
    (questions : List Question) :
    counts_agree (enhanced_scores answers questions)
      (calculate_dimension_scores answers questions) :=
  counts_agree_fold questions answers {} {}
    ⟨rfl, rfl, rfl, rfl, rfl, rfl, rfl, rfl, rfl, rfl, rfl, rfl⟩

/-- One dimension pair is free of a data tie: it either has no questions
or strictly unequal counts. -/
def untied_or_empty (c : DimCount) : Bool :=
  (c.total == 0) || (c.first_count != c.second_count)

/-- Hypothesis predicate: no dimension pair with data is exactly tied. -/
def no_tied_dimension (answers : List AssessmentAnswer)
    (questions : List Question) : Bool :=
  untied_or_empty (enhanced_scores answers questions).EI &&
  untied_or_empty (enhanced_scores answers questions).SN &&
  untied_or_empty (enhanced_scores answers questions).TF &&
  untied_or_empty (enhanced_scores answers questions).JP

/-- The confidence value a dimension contributes to the overall
geometric mean: the analysis confidence when the dimension has data, the
fixed tie-break confidence 0.51 otherwise. -/
noncomputable def dim_confidence_entry (answers : List AssessmentAnswer)
    (questions : List Question) (dim : PersonalityDimension) : ℝ :=
  match calculate_dimensional_analyses answers questions dim with
  | some a => a.confidence_level
  | none => 0.51

/-- Claim-side geometric mean of four values. -/
noncomputable def c6_geomean (x y z w : ℝ) : ℝ := (x * y * z * w) ^ ((1 : ℝ) / 4)

theorem pick_eval (dim : PersonalityDimension) (c : DimCount)
    (htot : c.total = c.first_count + c.second_count)
    (hu : c.total = 0 ∨ c.first_count ≠ c.second_count) :
    (match make_analysis dim c with
     | some a => (a.preference_letter, a.confidence_level)
     | none => ENHANCED_TIE_BREAKING_RULES dim) =
      ((if c.first_count > c.second_count then (dim_letters dim).1
        else if c.second_count > c.first_count then (dim_letters dim).2
        else TIE_BREAKING_RULES dim),
       (match make_analysis dim c with
        | some a => a.confidence_level
        | none => (0.51 : ℝ))) ∧
    0 < (match make_analysis dim c with
         | some a => a.confidence_level
         | none => (0.51 : ℝ)) := by
  rcases Nat.eq_zero_or_pos c.total with h0 | hpos
  · have hx : c.first_count = 0 := by omega
    have hy : c.second_count = 0 := by omega
    have hm : make_analysis dim c = none := by
      unfold make_analysis
      rw [if_pos h0]
    rw [hm, hx, hy]
    constructor
    · simp only [gt_iff_lt, lt_irrefl, if_false]
      cases dim <;> rfl
    · cases dim <;> norm_num [ENHANCED_TIE_BREAKING_RULES]
  · have hne : c.first_count ≠ c.second_count := by
      rcases hu with h | h
      · omega
      · exact h
    have h0' : ¬ c.total = 0 := by omega
    rcases lt_or_gt_of_ne hne with hlt | hgt
    · simp only [make_analysis, if_neg h0', ge_iff_le, if_neg (by omega : ¬ c.second_count ≤ c.first_count)]
      refine ⟨?_, ?_⟩
      · rw [if_neg (by omega : ¬ c.first_count > c.second_count),
          if_pos (by omega : c.second_count > c.first_count)]
      · exact calculate_confidence_level_pos c.second_count c.total hpos (by omega)
    · simp only [make_analysis, if_neg h0', ge_iff_le, if_pos (by omega : c.second_count ≤ c.first_count)]
      refine ⟨?_, ?_⟩
      · rw [if_pos (by omega : c.first_count > c.second_count)]
      · exact calculate_confidence_level_pos c.first_count c.total hpos (by omega)

theorem determine_type_ok (A : List AssessmentAnswer) (Q : List Question)
    (ht : no_tied_dimension A Q = true) :
    0 < dim_confidence_entry A Q .EI ∧ 0 < dim_confidence_entry A Q .SN ∧
    0 < dim_confidence_entry A Q .TF ∧ 0 < dim_confidence_entry A Q .JP ∧
    determine_type_with_confidence (calculate_dimensional_analyses A Q) =
      .ok (determine_personality_type (calculate_dimension_scores A Q),
        c6_geomean (dim_confidence_entry A Q .EI) (dim_confidence_entry A Q .SN)
          (dim_confidence_entry A Q .TF) (dim_confidence_entry A Q .JP)) := by
  obtain ⟨f1, f2, f3, f4, f5, f6, f7, f8, t1, t2, t3, t4⟩ :=
    enhanced_scores_agree A Q
  simp only [no_tied_dimension, Bool.and_eq_true, untied_or_empty,
    Bool.or_eq_true, beq_iff_eq, bne_iff_ne, ne_eq] at ht
  obtain ⟨⟨⟨uEI, uSN⟩, uTF⟩, uJP⟩ := ht
  have pEI := pick_eval .EI (enhanced_scores A Q).EI (by rw [t1, f1, f2]) uEI
  have pSN := pick_eval .SN (enhanced_scores A Q).SN (by rw [t2, f3, f4]) uSN
  have pTF := pick_eval .TF (enhanced_scores A Q).TF (by rw [t3, f5, f6]) uTF
  have pJP := pick_eval .JP (enhanced_scores A Q).JP (by rw [t4, f7, f8]) uJP
  have eEI : dim_confidence_entry A Q .EI =
      (match make_analysis .EI (enhanced_scores A Q).EI with
       | some a => a.confidence_level
       | none => (0.51 : ℝ)) := rfl
  have eSN : dim_confidence_entry A Q .SN =
      (match make_analysis .SN (enhanced_scores A Q).SN with
       | some a => a.confidence_level
       | none => (0.51 : ℝ)) := rfl
  have eTF : dim_confidence_entry A Q .TF =
      (match make_analysis .TF (enhanced_scores A Q).TF with
       | some a => a.confidence_level
       | none => (0.51 : ℝ)) := rfl
  have eJP : dim_confidence_entry A Q .JP =
      (match make_analysis .JP (enhanced_scores A Q).JP with
       | some a => a.confidence_level
       | none => (0.51 : ℝ)) := rfl
  have posEI : 0 < dim_confidence_entry A Q .EI := by rw [eEI]; exact pEI.2
  have posSN : 0 < dim_confidence_entry A Q .SN := by rw [eSN]; exact pSN.2
  have posTF : 0 < dim_confidence_entry A Q .TF := by rw [eTF]; exact pTF.2
  have posJP : 0 < dim_confidence_entry A Q .JP := by rw [eJP]; exact pJP.2
  refine ⟨posEI, posSN, posTF, posJP, ?_⟩
  simp only [determine_type_with_confidence, calculate_dimensional_analyses,
    EnhancedScoresDict.get]
  rw [pEI.1, pSN.1, pTF.1, pJP.1]
  simp only [List.map_cons, List.map_nil]
  rw [← eEI, ← eSN, ← eTF, ← eJP]
  rw [geometric_mean_ok _ ⟨by simp, by
    intro x hx
    simp only [List.mem_cons, List.not_mem_nil, or_false] at hx
    rcases hx with h | h | h | h <;> subst h <;> assumption⟩]
  have hprod : ([dim_confidence_entry A Q .EI, dim_confidence_entry A Q .SN,
      dim_confidence_entry A Q .TF, dim_confidence_entry A Q .JP] : List ℝ).prod =
      dim_confidence_entry A Q .EI * dim_confidence_entry A Q .SN *
      dim_confidence_entry A Q .TF * dim_confidence_entry A Q .JP := by
    simp only [List.prod_cons, List.prod_nil, mul_one]
    ring
  rw [hprod]
  simp only [List.length_cons, List.length_nil]
  norm_num [c6_geomean, determine_personality_type, dim_letters,
    TIE_BREAKING_RULES, f1, f2, f3, f4, f5, f6, f7, f8]

theorem basic_entry_ok (S : AssessmentSession) (A : List AssessmentAnswer)
    (Q : List Question) (T : List PersonalityTypeRec)
    (hc : S.is_completed = true) (hn : A.length = 36) :
    basic_type_code S A Q T =
      some (determine_personality_type (calculate_dimension_scores A Q)) := by
  unfold basic_type_code calculate_personality_type
  rw [hc]
  simp [hn]

theorem enhanced_entry_ok (S : AssessmentSession) (A : List AssessmentAnswer)
    (Q : List Question) (T : List PersonalityTypeRec) (tc : String × ℝ)
    (hc : S.is_completed = true) (hn : A.length = 36)
    (hd : determine_type_with_confidence (calculate_dimensional_analyses A Q) =
      .ok tc) :
    enhanced_type_code S A Q T = some tc.1 ∧
    enhanced_type_confidence S A Q T = some tc.2 := by
  unfold enhanced_type_code enhanced_type_confidence
    calculate_enhanced_personality_type
  rw [hc]
  simp only [Bool.not_true, Bool.false_eq_true, if_false, hn, ne_eq,
    not_true_eq_false]
  rw [hd]
  exact ⟨rfl, rfl⟩

/-- At the tied fixture, the EI analysis carries confidence zero, and the
geometric mean of the confidence list fails with `StatisticsError`, so
the enhanced entry point returns an error for this complete 36-answer
set. -/
theorem tied_enhanced_error :
    (calculate_enhanced_personality_type sess0 answers_tie_EI cat_tied []).1 =
      Except.error .statisticsError := by
  have hscores : enhanced_scores answers_tie_EI cat_tied =
      { EI := ⟨1, 1, 2⟩, SN := ⟨11, 0, 11⟩, TF := ⟨11, 0, 11⟩,
        JP := ⟨12, 0, 12⟩ } := by decide
  have hd : determine_type_with_confidence
      (calculate_dimensional_analyses answers_tie_EI cat_tied) =
      Except.error .statisticsError := by
    simp only [determine_type_with_confidence, calculate_dimensional_analyses,
      EnhancedScoresDict.get, hscores]
    have hEIa : make_analysis .EI ⟨1, 1, 2⟩ =
        some { dimension := .EI, raw_score := 1, total_questions := 2,
               percentage := ((1 : ℕ) : ℚ) / ((2 : ℕ) : ℚ),
               preference_letter := 'E',
               strength_category := determine_strength_category (((1 : ℕ) : ℚ) / ((2 : ℕ) : ℚ)),
               confidence_level := calculate_confidence_level 1 2,
               standard_error := calculate_standard_error (((1 : ℕ) : ℚ) / ((2 : ℕ) : ℚ)) 2,
               z_score := calculate_z_score (((1 : ℕ) : ℚ) / ((2 : ℕ) : ℚ)) } := rfl
    rw [hEIa]
    simp only [List.map_cons, List.map_nil]
    unfold geometric_mean
    rw [if_neg]
    intro hall
    have h0 := hall.2 (calculate_confidence_level 1 2) (by simp)
    rw [confidence_one_one_two] at h0
    exact lt_irrefl 0 h0
  unfold calculate_enhanced_personality_type
  rw [show sess0.is_completed = true from rfl]
  simp only [Bool.not_true, Bool.false_eq_true, if_false,
    show answers_tie_EI.length = 36 by decide, ne_eq, not_true_eq_false]
  rw [hd]

/-! ## Claim C1 -/

/-- C1 as amended: whenever every dimension pair with data has strictly
unequal counts, the enhanced variant succeeds and resolves exactly the
basic variant's type code (catalog-empty dimensions get the same
tie-break letter in both variants); on an exact data tie the enhanced
variant instead fails (see the counterexample), so the codes agree on
every input where both are produced. -/
theorem c1_amended (S : AssessmentSession) (A : List AssessmentAnswer)
    (Q : List Question) (T : List PersonalityTypeRec)
    (hc : S.is_completed = true) (hn : A.length = 36)
    (ht : no_tied_dimension A Q = true) :
    enhanced_type_code S A Q T = basic_type_code S A Q T ∧
    basic_type_code S A Q T =
      some (determine_personality_type (calculate_dimension_scores A Q)) := by
  have hd := (determine_type_ok A Q ht).2.2.2.2
  have hb := basic_entry_ok S A Q T hc hn
  have he := (enhanced_entry_ok S A Q T _ hc hn hd).1
  exact ⟨by rw [he, hb], hb⟩

/-- Witness for C1 at the all-A input over the standard catalog. -/
theorem c1_witness :
    sess0.is_completed = true ∧ answers_all_A.length = 36 ∧
    no_tied_dimension answers_all_A cat9 = true ∧
    (enhanced_type_code sess0 answers_all_A cat9 [] =
       basic_type_code sess0 answers_all_A cat9 [] ∧
     basic_type_code sess0 answers_all_A cat9 [] =
       some (determine_personality_type
         (calculate_dimension_scores answers_all_A cat9))) :=
  ⟨rfl, by decide, by decide,
   c1_amended sess0 answers_all_A cat9 [] rfl (by decide) (by decide)⟩

/-- Counterexample to C1 as stated: on a complete 36-answer set whose EI
pair is tied 1-1, the basic variant resolves "ISTJ" (tie-break letter I)
but the enhanced variant produces no type code at all — it fails with a
`StatisticsError` because the tied dimension's confidence is 0 and the
geometric mean rejects nonpositive values. -/
theorem c1_counterexample :
    answers_tie_EI.length = 36 ∧
    basic_type_code sess0 answers_tie_EI cat_tied [] = some "ISTJ" ∧
    (calculate_enhanced_personality_type sess0 answers_tie_EI cat_tied []).1 =
      Except.error .statisticsError :=
  ⟨by decide, by decide, tied_enhanced_error⟩

/-! ## Claim C6 -/

/-- C6 as amended: on every complete answer set with no exact data tie,
the enhanced variant's overall type confidence is the geometric mean of
the four per-dimension confidence entries, where a dimension absent from
the catalog (resolved by the tie-break rule) contributes the fixed 0.51
and a dimension with data contributes its computed confidence level; an
exactly tied dimension instead has confidence 0 and the geometric-mean
computation fails, producing no overall confidence (see the
counterexample). -/
theorem c6_amended (S : AssessmentSession) (A : List AssessmentAnswer)
    (Q : List Question) (T : List PersonalityTypeRec)
    (hc : S.is_completed = true) (hn : A.length = 36)
    (ht : no_tied_dimension A Q = true) :
    enhanced_type_confidence S A Q T =
      some (c6_geomean (dim_confidence_entry A Q .EI) (dim_confidence_entry A Q .SN)
        (dim_confidence_entry A Q .TF) (dim_confidence_entry A Q .JP)) ∧
    0 ≤ c6_geomean (dim_confidence_entry A Q .EI) (dim_confidence_entry A Q .SN)
      (dim_confidence_entry A Q .TF) (dim_confidence_entry A Q .JP) ∧
    c6_geomean (dim_confidence_entry A Q .EI) (dim_confidence_entry A Q .SN)
        (dim_confidence_entry A Q .TF) (dim_confidence_entry A Q .JP) ^ (4 : ℕ) =
      dim_confidence_entry A Q .EI * dim_confidence_entry A Q .SN *
        dim_confidence_entry A Q .TF * dim_confidence_entry A Q .JP ∧
    (∀ dim, calculate_dimensional_analyses A Q dim = none →
      dim_confidence_entry A Q dim = 0.51) ∧
    (∀ dim a, calculate_dimensional_analyses A Q dim = some a →
      dim_confidence_entry A Q dim = a.confidence_level) := by
  obtain ⟨p1, p2, p3, p4, hd⟩ := determine_type_ok A Q ht
  have he := (enhanced_entry_ok S A Q T _ hc hn hd).2
  have hprodpos : (0 : ℝ) <
      dim_confidence_entry A Q .EI * dim_confidence_entry A Q .SN *
        dim_confidence_entry A Q .TF * dim_confidence_entry A Q .JP := by
    positivity
  refine ⟨he, ?_, ?_, ?_, ?_⟩
  · unfold c6_geomean
    exact Real.rpow_nonneg hprodpos.le _
  · unfold c6_geomean
    rw [← Real.rpow_natCast
        ((dim_confidence_entry A Q .EI * dim_confidence_entry A Q .SN *
          dim_confidence_entry A Q .TF * dim_confidence_entry A Q .JP) ^
          ((1 : ℝ) / 4)) 4,
      ← Real.rpow_mul hprodpos.le]
    norm_num
  · intro dim hnone
    unfold dim_confidence_entry
    rw [hnone]
  · intro dim a hsome
    unfold dim_confidence_entry
    rw [hsome]

/-- Witness for C6 at the all-A input over the standard catalog. -/
theorem c6_witness :
    sess0.is_completed = true ∧ answers_all_A.length = 36 ∧
    no_tied_dimension answers_all_A cat9 = true ∧
    enhanced_type_confidence sess0 answers_all_A cat9 [] =
      some (c6_geomean (dim_confidence_entry answers_all_A cat9 .EI)
        (dim_confidence_entry answers_all_A cat9 .SN)
        (dim_confidence_entry answers_all_A cat9 .TF)
        (dim_confidence_entry answers_all_A cat9 .JP)) :=
  ⟨rfl, by decide, by decide,
   (c6_amended sess0 answers_all_A cat9 [] rfl (by decide) (by decide)).1⟩

/-- Counterexample to C6 as stated: a complete 36-answer set whose EI
pair is exactly tied yields no overall type confidence at all (the
enhanced variant raises a `StatisticsError`), so no geometric-mean
equation with a 0.51 contribution holds for it. -/
theorem c6_counterexample :
    answers_tie_EI.length = 36 ∧
    enhanced_type_confidence sess0 answers_tie_EI cat_tied [] = none := by
  refine ⟨by decide, ?_⟩
  unfold enhanced_type_confidence
  rw [tied_enhanced_error]

/-! ## Claim C5 -/

/-- The types-table row for "ESTJ". -/
def tbl_ESTJ : List PersonalityTypeRec :=
  [{ id := 7, code := "ESTJ", name_en := "Executive" }]

/-- The enhanced strength dict as built by the pipeline: pair-name keys
("EI", "SN", "TF", "JP") mapping to the winning percentages. -/
noncomputable def enhanced_prefs (answers : List AssessmentAnswer)
    (questions : List Question) : List (String × ℚ) :=
  [PersonalityDimension.EI, .SN, .TF, .JP].filterMap (fun dim =>
    (calculate_dimensional_analyses answers questions dim).map
      (fun a => (dim_name dim, a.percentage)))

theorem enhanced_session_fields (S : AssessmentSession)
    (A : List AssessmentAnswer) (Q : List Question)
    (T : List PersonalityTypeRec) (tc : String × ℝ)
    (hc : S.is_completed = true) (hn : A.length = 36)
    (hd : determine_type_with_confidence (calculate_dimensional_analyses A Q) =
      .ok tc) :
    enhanced_strengths_dict S A Q T = some (enhanced_prefs A Q) ∧
    (enhanced_session_after S A Q T).e_strength =
      dict_get (enhanced_prefs A Q) "E" 0 ∧
    (enhanced_session_after S A Q T).s_strength =
      dict_get (enhanced_prefs A Q) "S" 0 ∧
    (enhanced_session_after S A Q T).t_strength =
      dict_get (enhanced_prefs A Q) "T" 0 ∧
    (enhanced_session_after S A Q T).j_strength =
      dict_get (enhanced_prefs A Q) "J" 0 ∧
    (enhanced_session_after S A Q T).personality_type_id =
      (match T.find? (fun t => t.code == tc.1) with
       | some pt => some pt.id
       | none => S.personality_type_id) := by
  unfold enhanced_strengths_dict enhanced_session_after
    calculate_enhanced_personality_type
  rw [hc]
  simp only [Bool.not_true, Bool.false_eq_true, if_false, hn, ne_eq,
    not_true_eq_false]
  rw [hd]
  simp only [update_session_with_enhanced_results, enhanced_prefs]
  cases hf : T.find? (fun t => t.code == tc.1) <;> simp [hf]

theorem c5_all_A_scores : enhanced_scores answers_all_A cat9 =
    { EI := ⟨9, 0, 9⟩, SN := ⟨9, 0, 9⟩, TF := ⟨9, 0, 9⟩, JP := ⟨9, 0, 9⟩ } := by
  decide

theorem c5_type_ok : determine_type_with_confidence
    (calculate_dimensional_analyses answers_all_A cat9) = .ok ("ESTJ", 1) := by
  have hEIa : make_analysis .EI ⟨9, 0, 9⟩ =
      some { dimension := .EI, raw_score := 9, total_questions := 9,
             percentage := ((9 : ℕ) : ℚ) / ((9 : ℕ) : ℚ),
             preference_letter := 'E',
             strength_category := determine_strength_category (((9 : ℕ) : ℚ) / ((9 : ℕ) : ℚ)),
             confidence_level := calculate_confidence_level 9 9,
             standard_error := calculate_standard_error (((9 : ℕ) : ℚ) / ((9 : ℕ) : ℚ)) 9,
             z_score := calculate_z_score (((9 : ℕ) : ℚ) / ((9 : ℕ) : ℚ)) } := rfl
  have hSNa : make_analysis .SN ⟨9, 0, 9⟩ =
      some { dimension := .SN, raw_score := 9, total_questions := 9,
             percentage := ((9 : ℕ) : ℚ) / ((9 : ℕ) : ℚ),
             preference_letter := 'S',
             strength_category := determine_strength_category (((9 : ℕ) : ℚ) / ((9 : ℕ) : ℚ)),
             confidence_level := calculate_confidence_level 9 9,
             standard_error := calculate_standard_error (((9 : ℕ) : ℚ) / ((9 : ℕ) : ℚ)) 9,
             z_score := calculate_z_score (((9 : ℕ) : ℚ) / ((9 : ℕ) : ℚ)) } := rfl
  have hTFa : make_analysis .TF ⟨9, 0, 9⟩ =
      some { dimension := .TF, raw_score := 9, total_questions := 9,
             percentage := ((9 : ℕ) : ℚ) / ((9 : ℕ) : ℚ),
             preference_letter := 'T',
             strength_category := determine_strength_category (((9 : ℕ) : ℚ) / ((9 : ℕ) : ℚ)),
             confidence_level := calculate_confidence_level 9 9,
             standard_error := calculate_standard_error (((9 : ℕ) : ℚ) / ((9 : ℕ) : ℚ)) 9,
             z_score := calculate_z_score (((9 : ℕ) : ℚ) / ((9 : ℕ) : ℚ)) } := rfl
  have hJPa : make_analysis .JP ⟨9, 0, 9⟩ =
      some { dimension := .JP, raw_score := 9, total_questions := 9,
             percentage := ((9 : ℕ) : ℚ) / ((9 : ℕ) : ℚ),
             preference_letter := 'J',
             strength_category := determine_strength_category (((9 : ℕ) : ℚ) / ((9 : ℕ) : ℚ)),
             confidence_level := calculate_confidence_level 9 9,
             standard_error := calculate_standard_error (((9 : ℕ) : ℚ) / ((9 : ℕ) : ℚ)) 9,
             z_score := calculate_z_score (((9 : ℕ) : ℚ) / ((9 : ℕ) : ℚ)) } := rfl
  simp only [determine_type_with_confidence, calculate_dimensional_analyses,
    EnhancedScoresDict.get, c5_all_A_scores, hEIa, hSNa, hTFa, hJPa]
  simp only [List.map_cons, List.map_nil, confidence_nine_nine]
  rw [geometric_mean_ok _ ⟨by simp, by
    intro x hx
    simp at hx
    subst hx
    norm_num⟩]
  simp only [List.prod_cons, List.prod_nil, mul_one, one_mul,
    List.length_cons, List.length_nil, Real.one_rpow]

/-- C5 fails on the enhanced variant: its write-back reads the letter
keys "E"/"S"/"T"/"J" from a strength dict keyed by pair names
("EI"/"SN"/"TF"/"JP"), so after a successful all-A enhanced scoring the
stored strengths are all 0 even though the computed EI strength in the
returned result is 1; the basic variant stores the computed 1, and the
resolved type identity is stored by both. -/
theorem c5_enhanced_strengths_dropped :
    dict_get (enhanced_prefs answers_all_A cat9) "EI" 0 = 1 ∧
    enhanced_strengths_dict sess0 answers_all_A cat9 tbl_ESTJ =
      some (enhanced_prefs answers_all_A cat9) ∧
    (enhanced_session_after sess0 answers_all_A cat9 tbl_ESTJ).e_strength = 0 ∧
    (enhanced_session_after sess0 answers_all_A cat9 tbl_ESTJ).s_strength = 0 ∧
    (enhanced_session_after sess0 answers_all_A cat9 tbl_ESTJ).t_strength = 0 ∧
    (enhanced_session_after sess0 answers_all_A cat9 tbl_ESTJ).j_strength = 0 ∧
    (enhanced_session_after sess0 answers_all_A cat9 tbl_ESTJ).personality_type_id =
      some 7 ∧
    (calculate_personality_type sess0 answers_all_A cat9 tbl_ESTJ).2.e_strength = 1 := by
  obtain ⟨hdict, he, hs, ht', hj, hid⟩ :=
    enhanced_session_fields sess0 answers_all_A cat9 tbl_ESTJ ("ESTJ", 1) rfl
      (by decide) c5_type_ok
  have hprefs : enhanced_prefs answers_all_A cat9 =
      [("EI", ((9 : ℕ) : ℚ) / ((9 : ℕ) : ℚ)), ("SN", ((9 : ℕ) : ℚ) / ((9 : ℕ) : ℚ)),
       ("TF", ((9 : ℕ) : ℚ) / ((9 : ℕ) : ℚ)), ("JP", ((9 : ℕ) : ℚ) / ((9 : ℕ) : ℚ))] := rfl
  refine ⟨?_, hdict, ?_, ?_, ?_, ?_, ?_, ?_⟩
  · rw [hprefs]
    simp only [dict_get, dict_find?, List.find?]
    norm_num
  · rw [he, hprefs]; rfl
  · rw [hs, hprefs]; rfl
  · rw [ht', hprefs]; rfl
  · rw [hj, hprefs]; rfl
  · rw [hid]; rfl
  · have hbs : calculate_dimension_scores answers_all_A cat9 =
        { e_score := 9, i_score := 0, s_score := 9, n_score := 0,
          t_score := 9, f_score := 0, j_score := 9, p_score := 0 } := by decide
    have hstep : (calculate_personality_type sess0 answers_all_A cat9 tbl_ESTJ).2.e_strength =
        dict_get (calculate_preference_strengths
          (calculate_dimension_scores answers_all_A cat9)) "E" 0 := by
      unfold calculate_personality_type
      rw [show sess0.is_completed = true from rfl]
      simp only [Bool.not_true, Bool.false_eq_true, if_false,
        show answers_all_A.length = 36 by decide, ne_eq, not_true_eq_false]
      simp only [update_session_with_results]
    rw [hstep, hbs]
    simp only [calculate_preference_strengths]
    norm_num [dict_get, dict_find?, List.find?]

end Masark
